import Mathlib

/-!
Shallow embedding of `send-countdown.js` (daily Slack countdown poster) and
proofs of the specification's claims about it.

Machine integers are modelled as `Nat`/`Int` with explicit reduction modulo
`2 ^ 32` (resp. `2 ^ 64`) where JavaScript's 32-bit hash arithmetic overflows.
Bytes are `Nat`s below 256.  Strings are Lean `String`s; UTF-8 encoding is
made explicit where the source hashes string contents.
-/

namespace Countdown

/-- Flat map: `concatMap f l` appends the images of `f` over `l` (flat map). -/
def concatMap (f : α → List β) : List α → List β
  | [] => []
  | a :: as => f a ++ concatMap f as

/-- Split a list into consecutive chunks of size `n`. -/
def chunks (n : Nat) (l : List α) : List (List α) :=
  if h : 0 < n ∧ 0 < l.length then
    l.take n :: chunks n (l.drop n)
  else []
termination_by l.length
decreasing_by simp [List.length_drop]; omega

/-- JavaScript whitespace characters relevant to `String.prototype.trim`. -/
def isJsSpace (c : Char) : Bool :=
  c == ' ' || c == '\t' || c == '\n' || c == '\r' || c == '\x0b' || c == '\x0c'

/-- Model of JavaScript `String.prototype.trim`: drop leading and trailing
whitespace characters. -/
def jsTrim (s : String) : String :=
  String.mk (((s.data.dropWhile isJsSpace).reverse.dropWhile isJsSpace).reverse)

/-- Lower-case hexadecimal digit for `n < 16`. -/
def hexDigitChar (n : Nat) : Char :=
  if n < 10 then Char.ofNat (48 + n) else Char.ofNat (87 + n)

/-- Render a list of bytes as lower-case hex characters (two per byte),
as Node's `Buffer.prototype.toString("hex")` does. -/
def bytesToHex : List Nat → List Char
  | [] => []
  | b :: bs => hexDigitChar (b / 16 % 16) :: hexDigitChar (b % 16) :: bytesToHex bs

/-- Numeric value of one hex digit character (`parseInt` digit semantics). -/
def hexVal (c : Char) : Nat :=
  if 48 ≤ c.toNat ∧ c.toNat ≤ 57 then c.toNat - 48
  else if 97 ≤ c.toNat ∧ c.toNat ≤ 102 then c.toNat - 87
  else if 65 ≤ c.toNat ∧ c.toNat ≤ 70 then c.toNat - 55
  else 0

/-- Model of `parseInt(s, 16)` on a string of hex digits. -/
def hexToNat (s : String) : Nat :=
  s.data.foldl (fun acc c => acc * 16 + hexVal c) 0

/-- UTF-8 encoding of a single Unicode code point. -/
def utf8EncodeChar (n : Nat) : List Nat :=
  if n < 128 then [n]
  else if n < 2048 then [192 + n / 64, 128 + n % 64]
  else if n < 65536 then [224 + n / 4096, 128 + n / 64 % 64, 128 + n % 64]
  else [240 + n / 262144, 128 + n / 4096 % 64, 128 + n / 64 % 64, 128 + n % 64]

/-- UTF-8 byte sequence of a string (what Node hashes when `update` is
called with a string argument). -/
def strUtf8 (s : String) : List Nat :=
  concatMap (fun c => utf8EncodeChar c.toNat) s.data

/-! ### 32-bit arithmetic -/

/-- The constant `2 ^ 32`. -/
def w32 : Nat := 4294967296

/-- All-ones 32-bit mask. -/
def mask32 : Nat := 4294967295

/-- Rotate a 32-bit word left by `n`. -/
def rotl32 (x n : Nat) : Nat :=
  ((x <<< n) ||| (x >>> (32 - n))) % w32

/-- Little-endian 32-bit word from (up to) four bytes. -/
def leWord : List Nat → Nat
  | b0 :: b1 :: b2 :: b3 :: _ => b0 + 256 * b1 + 65536 * b2 + 16777216 * b3
  | b0 :: b1 :: b2 :: _ => b0 + 256 * b1 + 65536 * b2
  | b0 :: b1 :: _ => b0 + 256 * b1
  | b0 :: _ => b0
  | [] => 0

/-- Big-endian 32-bit word from (up to) four bytes. -/
def beWord : List Nat → Nat
  | b0 :: b1 :: b2 :: b3 :: _ => 16777216 * b0 + 65536 * b1 + 256 * b2 + b3
  | _ => 0

/-- Little-endian byte decomposition of a 32-bit word. -/
def leBytes (x : Nat) : List Nat :=
  [x % 256, x / 256 % 256, x / 65536 % 256, x / 16777216 % 256]

/-- Big-endian byte decomposition of a 32-bit word. -/
def beBytes (x : Nat) : List Nat :=
  [x / 16777216 % 256, x / 65536 % 256, x / 256 % 256, x % 256]

/-! ### MD5 (RFC 1321) -/

/-- The 64 MD5 sine-derived constants. -/
def md5K : List Nat :=
  [0xd76aa478, 0xe8c7b756, 0x242070db, 0xc1bdceee,
   0xf57c0faf, 0x4787c62a, 0xa8304613, 0xfd469501,
   0x698098d8, 0x8b44f7af, 0xffff5bb1, 0x895cd7be,
   0x6b901122, 0xfd987193, 0xa679438e, 0x49b40821,
   0xf61e2562, 0xc040b340, 0x265e5a51, 0xe9b6c7aa,
   0xd62f105d, 0x02441453, 0xd8a1e681, 0xe7d3fbc8,
   0x21e1cde6, 0xc33707d6, 0xf4d50d87, 0x455a14ed,
   0xa9e3e905, 0xfcefa3f8, 0x676f02d9, 0x8d2a4c8a,
   0xfffa3942, 0x8771f681, 0x6d9d6122, 0xfde5380c,
   0xa4beea44, 0x4bdecfa9, 0xf6bb4b60, 0xbebfbc70,
   0x289b7ec6, 0xeaa127fa, 0xd4ef3085, 0x04881d05,
   0xd9d4d039, 0xe6db99e5, 0x1fa27cf8, 0xc4ac5665,
   0xf4292244, 0x432aff97, 0xab9423a7, 0xfc93a039,
   0x655b59c3, 0x8f0ccc92, 0xffeff47d, 0x85845dd1,
   0x6fa87e4f, 0xfe2ce6e0, 0xa3014314, 0x4e0811a1,
   0xf7537e82, 0xbd3af235, 0x2ad7d2bb, 0xeb86d391]

/-- The 64 MD5 per-round left-rotation amounts. -/
def md5S : List Nat :=
  [7, 12, 17, 22, 7, 12, 17, 22, 7, 12, 17, 22, 7, 12, 17, 22,
   5, 9, 14, 20, 5, 9, 14, 20, 5, 9, 14, 20, 5, 9, 14, 20,
   4, 11, 16, 23, 4, 11, 16, 23, 4, 11, 16, 23, 4, 11, 16, 23,
   6, 10, 15, 21, 6, 10, 15, 21, 6, 10, 15, 21, 6, 10, 15, 21]

/-- One MD5 round: `i` is the round index, `M` the 16 message words. -/
def md5Round (M : List Nat) (st : Nat × Nat × Nat × Nat) (i : Nat) :
    Nat × Nat × Nat × Nat :=
  let a := st.1
  let b := st.2.1
  let c := st.2.2.1
  let d := st.2.2.2
  let fg : Nat × Nat :=
    if i < 16 then ((b &&& c) ||| ((b ^^^ mask32) &&& d), i)
    else if i < 32 then ((d &&& b) ||| ((d ^^^ mask32) &&& c), (5 * i + 1) % 16)
    else if i < 48 then (b ^^^ c ^^^ d, (3 * i + 5) % 16)
    else (c ^^^ (b ||| (d ^^^ mask32)), (7 * i) % 16)
  let tmp := (fg.1 + a + md5K.getD i 0 + M.getD fg.2 0) % w32
  (d, (b + rotl32 tmp (md5S.getD i 0)) % w32, b, c)

/-- MD5 compression of a single 64-byte block. -/
def md5Compress (st : Nat × Nat × Nat × Nat) (block : List Nat) :
    Nat × Nat × Nat × Nat :=
  let M := (chunks 4 block).map leWord
  let r := (List.range 64).foldl (md5Round M) st
  ((st.1 + r.1) % w32, (st.2.1 + r.2.1) % w32,
   (st.2.2.1 + r.2.2.1) % w32, (st.2.2.2 + r.2.2.2) % w32)

/-- MD5 padding: `0x80`, zeros to 56 mod 64, then 64-bit little-endian
bit length. -/
def md5Pad (msg : List Nat) : List Nat :=
  let len := msg.length
  let zeros := (119 - len % 64) % 64
  let bitLen := (len * 8) % (2 ^ 64)
  msg ++ (128 :: List.replicate zeros 0) ++
    ((List.range 8).map (fun i => bitLen / (2 ^ (8 * i)) % 256))

/-- MD5 digest (16 bytes) of a byte string. -/
def md5 (msg : List Nat) : List Nat :=
  let st := (chunks 64 (md5Pad msg)).foldl md5Compress
    (0x67452301, 0xefcdab89, 0x98badcfe, 0x10325476)
  leBytes st.1 ++ leBytes st.2.1 ++ leBytes st.2.2.1 ++ leBytes st.2.2.2

/-- Lower-case hex rendering of the MD5 digest, as
`createHash("md5").update(s).digest("hex")`. -/
def md5Hex (msg : List Nat) : String :=
  String.mk (bytesToHex (md5 msg))

/-! ### SHA-1 (RFC 3174) -/

/-- The 80-entry SHA-1 message schedule for one block. -/
def sha1Ws (m : List Nat) : List Nat :=
  (List.range 80).foldl
    (fun acc i =>
      if i < 16 then acc ++ [m.getD i 0]
      else acc ++ [rotl32 ((acc.getD (i - 3) 0) ^^^ (acc.getD (i - 8) 0) ^^^
        (acc.getD (i - 14) 0) ^^^ (acc.getD (i - 16) 0)) 1]) []

/-- One SHA-1 round over state `(a, b, c, d, e)`. -/
def sha1Round (ws : List Nat) (st : Nat × Nat × Nat × Nat × Nat) (i : Nat) :
    Nat × Nat × Nat × Nat × Nat :=
  let a := st.1
  let b := st.2.1
  let c := st.2.2.1
  let d := st.2.2.2.1
  let e := st.2.2.2.2
  let fk : Nat × Nat :=
    if i < 20 then ((b &&& c) ||| ((b ^^^ mask32) &&& d), 0x5a827999)
    else if i < 40 then (b ^^^ c ^^^ d, 0x6ed9eba1)
    else if i < 60 then ((b &&& c) ||| (b &&& d) ||| (c &&& d), 0x8f1bbcdc)
    else (b ^^^ c ^^^ d, 0xca62c1d6)
  ((rotl32 a 5 + fk.1 + e + fk.2 + ws.getD i 0) % w32, a, rotl32 b 30, c, d)

/-- SHA-1 compression of a single 64-byte block. -/
def sha1Compress (st : Nat × Nat × Nat × Nat × Nat) (block : List Nat) :
    Nat × Nat × Nat × Nat × Nat :=
  let ws := sha1Ws ((chunks 4 block).map beWord)
  let r := (List.range 80).foldl (sha1Round ws) st
  ((st.1 + r.1) % w32, (st.2.1 + r.2.1) % w32, (st.2.2.1 + r.2.2.1) % w32,
   (st.2.2.2.1 + r.2.2.2.1) % w32, (st.2.2.2.2 + r.2.2.2.2) % w32)

/-- SHA-1 padding: `0x80`, zeros to 56 mod 64, then 64-bit big-endian
bit length. -/
def sha1Pad (msg : List Nat) : List Nat :=
  let len := msg.length
  let zeros := (119 - len % 64) % 64
  let bitLen := (len * 8) % (2 ^ 64)
  msg ++ (128 :: List.replicate zeros 0) ++
    ((List.range 8).map (fun i => bitLen / (2 ^ (8 * (7 - i))) % 256))

/-- SHA-1 digest (20 bytes) of a byte string. -/
def sha1 (msg : List Nat) : List Nat :=
  let st := (chunks 64 (sha1Pad msg)).foldl sha1Compress
    (0x67452301, 0xefcdab89, 0x98badcfe, 0x10325476, 0xc3d2e1f0)
  beBytes st.1 ++ beBytes st.2.1 ++ beBytes st.2.2.1 ++ beBytes st.2.2.2.1 ++
    beBytes st.2.2.2.2

/-- Lower-case hex rendering of the SHA-1 digest, as
`createHash("sha1").update(s).digest("hex")`. -/
def sha1Hex (msg : List Nat) : String :=
  String.mk (bytesToHex (sha1 msg))

/-! ### Configuration constants of `send-countdown.js` -/

/-- The `EVENT_NAME` constant. -/
def EVENT_NAME : String := "What have you done today to double your money?"

/-- The `MILESTONES` set: days-left values that trigger the amplified message. -/
def MILESTONES : List Int := [90, 75, 60, 45, 30, 21, 14, 10, 7, 5, 3, 2, 1, 0]

/-- The `BAR_LENGTH` constant. -/
def BAR_LENGTH : Int := 30

/-- The `BAR_FILLED` glyph. -/
def BAR_FILLED : String := "🟩"

/-- The `BAR_EMPTY` glyph. -/
def BAR_EMPTY : String := "⬜"

/-- The `STOP_AFTER` constant. -/
def STOP_AFTER : Bool := true

/-! ### Date arithmetic

`localStartOfDay` / `todayLocal` resolve wall-clock dates through the host
locale facility; the resolved instants enter the model as integer
millisecond timestamps (`nowMs`, `startMs`, `targetMs`). -/

/-- Function `daysDiff`: `(b - a)` in whole days, floored (JS `Math.floor` on real
division is floor division on integers). -/
def daysDiff (a b : Int) : Int := (b - a).fdiv 86400000

/-- Function `daysLeft`: remaining days, ceiling-rounded
(`Math.ceil x = -Math.floor (-x)`). -/
def daysLeft (nowLocal targetLocal : Int) : Int :=
  -((-(targetLocal - nowLocal)).fdiv 86400000)

/-! ### Renderer -/

/-- JS `Math.round`: round half toward positive infinity. -/
def jsRound (q : ℚ) : Int := ⌊q + 1 / 2⌋

/-- JS `(x).toFixed(1)` for nonnegative `x`: nearest multiple of `1/10`,
ties toward the larger value, rendered with exactly one decimal digit. -/
def toFixed1 (q : ℚ) : String :=
  let n := (jsRound (q * 10)).toNat
  toString (n / 10) ++ (".") ++ toString (n % 10)

/-- JS `String.prototype.repeat`. -/
def strRepeat (s : String) : Nat → String
  | 0 => ("")
  | n + 1 => s ++ strRepeat s n

/-- The clamped progress ratio `Math.min(1, Math.max(0, elapsed / total))`
of `buildProgress`, with the floating-point quotient modelled exactly as a
rational. -/
def clampFrac (elapsedDays totalDays : Int) : ℚ :=
  min 1 (max 0 ((elapsedDays : ℚ) / (totalDays : ℚ)))

/-- Result record of `buildProgress` (`{ bar, pct }`). -/
structure Progress where
  bar : String
  pct : String
deriving Repr, DecidableEq

/-- Function `buildProgress` of the renderer. -/
def buildProgress (elapsedDays totalDays : Int) : Progress :=
  let frac := clampFrac elapsedDays totalDays
  let filled := jsRound (frac * (BAR_LENGTH : ℚ))
  ⟨strRepeat BAR_FILLED filled.toNat ++
     strRepeat BAR_EMPTY ((BAR_LENGTH - filled).toNat),
   toFixed1 (frac * 100)⟩

/-! ### Nudge selection (`pickNudge`) -/

/-- The `generic` candidate list. -/
def generic : List String :=
  ["What *specifically* did you do today to move the doubling needle?",
   "Tiny compounding moves > heroic last-minute swings.",
   "If you can’t write one actionable line you did—fix that *now*.",
   "Momentum beats perfection. Ship a micro-improvement.",
   "Eliminate one drag, amplify one driver."]

/-- The `milestoneFlavor` candidate list. -/
def milestoneFlavor : List String :=
  ["Milestone check-in: write *one concrete win* in a thread.",
   "Drop a ✅ in thread once you’ve executed *one task* toward doubling.",
   "Share your fastest experiment idea—speed > certainty.",
   "Name a blocker *and* the next action to crush it.",
   "Brag moment: what metric nudged upward recently?"]

/-- The `seedSource` string: the deterministic seed `` `${daysLeft}-${pct}` ``. -/
def seedSource (daysLeft : Int) (pct : String) : String :=
  toString daysLeft ++ ("-") ++ pct

/-- Generic-line index: first 8 hex chars of the MD5 of the seed, parsed as
an integer, modulo the candidate-list length. -/
def genericIdx (daysLeft : Int) (pct : String) : Nat :=
  hexToNat ((md5Hex (strUtf8 (seedSource daysLeft pct))).take 8) % generic.length

/-- Milestone-line index: same seed, SHA-1 instead of MD5. -/
def milestoneIdx (daysLeft : Int) (pct : String) : Nat :=
  hexToNat ((sha1Hex (strUtf8 (seedSource daysLeft pct))).take 8) %
    milestoneFlavor.length

/-- The `daysLeft > 1` day-count line. -/
def pluralLine (d : Int) (p : String) : String :=
  ("⏳ *") ++ toString d ++ (" days left* (") ++ p ++ ("% done).")

/-- The `daysLeft === 1` day-count line. -/
def lastCallLine (p : String) : String :=
  ("🔥 *1 day left!* (") ++ p ++ ("% done). Last call.")

/-- The `daysLeft === 0` day-count line. -/
def finalDayLine (p : String) : String :=
  ("🚀 *Today is the final day!* (") ++ p ++ ("% complete). Make it count.")

/-- The generic prompt line. -/
def promptLine (b : String) : String := ("💡 *Prompt:* ") ++ b

/-- The milestone prompt line. -/
def milestonePromptLine (f : String) : String :=
  ("🎯 *Milestone Prompt:* ") ++ f

/-- The closing retrospective line pushed when `daysLeft === 0`. -/
def retroLine : String :=
  "🏁 *Project is over after today.* Post a retro: What worked? What was noise? What will you keep doing?"

/-- The `lines` array built by `pickNudge`, in push order. -/
def pickNudgeLines (daysLeft : Int) (pct : String) (isMilestone : Bool) :
    List String :=
  (if 1 < daysLeft then [pluralLine daysLeft pct]
   else if daysLeft = 1 then [lastCallLine pct]
   else if daysLeft = 0 then [finalDayLine pct]
   else []) ++
  (if 0 < daysLeft then [promptLine (generic.getD (genericIdx daysLeft pct) (""))]
   else []) ++
  (if isMilestone ∧ 0 < daysLeft then
     [milestonePromptLine (milestoneFlavor.getD (milestoneIdx daysLeft pct) (""))]
   else []) ++
  (if daysLeft = 0 then [retroLine] else [])

/-- Function `pickNudge`: the joined nudge text. -/
def pickNudge (daysLeft : Int) (pct : String) (isMilestone : Bool) : String :=
  String.intercalate ("\n") (pickNudgeLines daysLeft pct isMilestone)

/-! ### Dedup guard and main -/

/-- State of the `.last_post_hash` file. -/
inductive GuardFile where
  | absent : GuardFile
  | stored : String → GuardFile
deriving Repr, DecidableEq

/-- Function `alreadyPostedGuard`, over an error-injecting file interface.
`readFails` / `writeFails` say whether `readFileSync` / `writeFileSync`
throw; a thrown error lands in the `catch` block, which ignores it and
falls through to `return false`.  Returns (duplicate?, file afterwards). -/
def alreadyPostedGuard (file : GuardFile) (readFails writeFails : Bool)
    (hash : String) : Bool × GuardFile :=
  match file with
  | .stored prev =>
    if readFails then (false, file)
    else if jsTrim prev == hash then (true, file)
    else if writeFails then (false, file)
    else (false, .stored hash)
  | .absent =>
    if writeFails then (false, .absent) else (false, .stored hash)

/-- The `!WEBHOOK` startup check: true when `SLACK_WEBHOOK_URL` is unset or
set to the (falsy) empty string. -/
def webhookMissing (w : Option String) : Bool := w.getD ("") == ("")

/-- Environment of one `main()` invocation: the two environment variables,
the three resolved instants, the guard-file state, injected storage errors,
and whether the Slack publish call would succeed. -/
structure RunEnv where
  webhookUrl : Option String
  botToken : Option String
  nowMs : Int
  startMs : Int
  targetMs : Int
  file : GuardFile
  readFails : Bool
  writeFails : Bool
  publishOk : Bool
deriving Repr, DecidableEq

/-- Observable outcome of one `main()` invocation. -/
structure RunOutcome where
  exitCode : Nat
  composed : Option String
  postAttempt : Option String
  posted : Bool
  dupSkip : Bool
  file : GuardFile
deriving Repr, DecidableEq

/-- Value `elapsedDays` as computed in `main`:
`Math.min(totalDays, Math.max(0, daysDiff(start, now)))`. -/
def elapsedDaysCalc (nowMs startMs targetMs : Int) : Int :=
  min (daysDiff startMs targetMs) (max 0 (daysDiff startMs nowMs))

/-- The composed message `core` of `main`
(`header + "\n" + progressLine + "\n" + nudge`). -/
def composeCore (nowMs startMs targetMs : Int) : String :=
  let totalDays := daysDiff startMs targetMs
  let elapsedDays := elapsedDaysCalc nowMs startMs targetMs
  let remaining := daysLeft nowMs targetMs
  let isMilestone := MILESTONES.contains remaining
  let p := buildProgress elapsedDays totalDays
  let header := ("*") ++ EVENT_NAME ++ ("*")
  let progressLine := p.bar ++ (" ") ++ p.pct ++ ("%")
  header ++ ("\n") ++ progressLine ++ ("\n") ++
    pickNudge remaining p.pct isMilestone

/-- Function `main()`: config check, window check, compose, dedup guard, publish.
Both arms of the `STOP_AFTER` branch return without posting and exit 0
(they differ only in console text, which is not modelled). -/
def runMain (env : RunEnv) : RunOutcome :=
  if webhookMissing env.webhookUrl then
    ⟨1, none, none, false, false, env.file⟩
  else
    let remaining := daysLeft env.nowMs env.targetMs
    if remaining < 0 then
      if STOP_AFTER then ⟨0, none, none, false, false, env.file⟩
      else ⟨0, none, none, false, false, env.file⟩
    else
      let core := composeCore env.nowMs env.startMs env.targetMs
      let hash := md5Hex (strUtf8 core)
      let g := alreadyPostedGuard env.file env.readFails env.writeFails hash
      if g.1 then ⟨0, some core, none, false, true, g.2⟩
      else if env.publishOk then ⟨0, some core, some core, true, false, g.2⟩
      else ⟨1, some core, some core, false, false, g.2⟩

/-! ### Helper lemmas -/

theorem dropWhile_eq_self_of (p : Char → Bool) (l : List Char)
    (h : ∀ c ∈ l, p c = false) : l.dropWhile p = l := by
  cases l with
  | nil => rfl
  | cons a as => simp [List.dropWhile_cons, h a (by simp)]

theorem jsTrim_eq_self (l : List Char) (h : ∀ c ∈ l, isJsSpace c = false) :
    jsTrim (String.mk l) = String.mk l := by
  unfold jsTrim
  have h1 : (String.mk l).data = l := rfl
  rw [h1, dropWhile_eq_self_of _ _ h, dropWhile_eq_self_of, List.reverse_reverse]
  intro c hc
  exact h c (List.mem_reverse.mp hc)

theorem hexDigitChar_not_space : ∀ n < 16, isJsSpace (hexDigitChar n) = false := by
  decide

theorem bytesToHex_not_space (bs : List Nat) :
    ∀ c ∈ bytesToHex bs, isJsSpace c = false := by
  induction bs with
  | nil => intro c hc; simp [bytesToHex] at hc
  | cons b bs ih =>
    intro c hc
    simp only [bytesToHex, List.mem_cons] at hc
    rcases hc with hc | hc | hc
    · exact hc ▸ hexDigitChar_not_space _ (Nat.mod_lt _ (by decide))
    · exact hc ▸ hexDigitChar_not_space _ (Nat.mod_lt _ (by decide))
    · exact ih c hc

theorem jsTrim_md5Hex (l : List Nat) : jsTrim (md5Hex l) = md5Hex l :=
  jsTrim_eq_self _ (bytesToHex_not_space _)

theorem strRepeat_length (s : String) (n : Nat) :
    (strRepeat s n).length = n * s.length := by
  induction n with
  | zero => simp [strRepeat]
  | succ n ih =>
    simp only [strRepeat, String.length_append, ih]
    ring

theorem pluralLine_head (d : Int) (p : String) :
    (pluralLine d p).data.head? = some '⏳' := by
  have hd : ("⏳ *" : String).data = ['⏳', ' ', '*'] := rfl
  simp [pluralLine, String.data_append, hd]

theorem lastCallLine_head (p : String) :
    (lastCallLine p).data.head? = some '🔥' := by
  have hd : ("🔥 *1 day left!* (" : String).data.head? = some '🔥' := rfl
  simp only [lastCallLine, String.data_append, List.head?_append, hd]
  rfl

theorem finalDayLine_head (p : String) :
    (finalDayLine p).data.head? = some '🚀' := by
  have hd : ("🚀 *Today is the final day!* (" : String).data.head? = some '🚀' := rfl
  simp only [finalDayLine, String.data_append, List.head?_append, hd]
  rfl

theorem promptLine_head (b : String) :
    (promptLine b).data.head? = some '💡' := by
  have hd : ("💡 *Prompt:* " : String).data.head? = some '💡' := rfl
  simp only [promptLine, String.data_append, List.head?_append, hd]
  rfl

theorem milestonePromptLine_head (f : String) :
    (milestonePromptLine f).data.head? = some '🎯' := by
  have hd : ("🎯 *Milestone Prompt:* " : String).data.head? = some '🎯' := rfl
  simp only [milestonePromptLine, String.data_append, List.head?_append, hd]
  rfl

theorem retroLine_head : retroLine.data.head? = some '🏁' := rfl

theorem jsRound_nonneg (q : ℚ) (h : 0 ≤ q) : 0 ≤ jsRound q := by
  rw [jsRound]
  apply Int.le_floor.mpr
  push_cast
  linarith

theorem jsRound_le_30 (q : ℚ) (h : q ≤ 30) : jsRound q ≤ 30 := by
  rw [jsRound]
  have h2 : ⌊q + 1 / 2⌋ ≤ ⌊(30 : ℚ) + 1 / 2⌋ := Int.floor_le_floor (by linarith)
  have h3 : ⌊(30 : ℚ) + 1 / 2⌋ = 30 := by norm_num
  omega

/-- Sample environment: day 0 of the real window (start `2025-07-20`,
target 90 days later), fresh guard file, no storage errors, publish ok. -/
def sampleEnv : RunEnv :=
  ⟨some ("https://hook"), none, 0, 0, 7776000000, .absent, false, false, true⟩

/-- Same, but the publish call fails. -/
def sampleEnvFail : RunEnv :=
  ⟨some ("https://hook"), none, 0, 0, 7776000000, .absent, false, false, false⟩

/-- Same, but `now` is past the target date (remaining = -2). -/
def sampleEnvLate : RunEnv :=
  ⟨some ("https://hook"), none, 8000000000, 0, 7776000000, .absent, false, false, true⟩

/-! ### Claims -/

/-- C1: nudge selection is deterministic: two evaluations of `pickNudge`
with identical `(remainingDays, percentString, isMilestone)` inputs, and two
evaluations of the whole composed message with identical resolved instants,
produce byte-identical text; the generic line index is the MD5-derived value
and the milestone line index the SHA-1-derived value, each reduced modulo
its fixed candidate-list length (so both are below those lengths). -/
theorem c1_nudge_deterministic (d1 d2 : Int) (p1 p2 : String) (m1 m2 : Bool)
    (n1 n2 s1 s2 t1 t2 : Int)
    (hd : d1 = d2) (hp : p1 = p2) (hm : m1 = m2)
    (hn : n1 = n2) (hs : s1 = s2) (ht : t1 = t2) :
    pickNudge d1 p1 m1 = pickNudge d2 p2 m2 ∧
    composeCore n1 s1 t1 = composeCore n2 s2 t2 ∧
    genericIdx d1 p1 < generic.length ∧
    milestoneIdx d1 p1 < milestoneFlavor.length := by
  subst hd; subst hp; subst hm; subst hn; subst hs; subst ht
  exact ⟨rfl, rfl, Nat.mod_lt _ (by decide), Nat.mod_lt _ (by decide)⟩

/-- Witness for C1 at the first real day (seed `"90-0.0"`). -/
theorem c1_nudge_deterministic_witness :
    pickNudge 90 ("0.0") true = pickNudge 90 ("0.0") true ∧
    composeCore 0 0 7776000000 = composeCore 0 0 7776000000 ∧
    genericIdx 90 ("0.0") < generic.length ∧
    milestoneIdx 90 ("0.0") < milestoneFlavor.length :=
  c1_nudge_deterministic 90 90 ("0.0") ("0.0") true true 0 0 0 0
    7776000000 7776000000 rfl rfl rfl rfl rfl rfl

/-- C6: for every elapsed/total pair (total positive; ratio clamped to
[0,1]) the bar is `round(ratio * 30)` filled glyphs followed by the rest
empty — exactly 30 glyphs — and the percent string is `ratio * 100`
formatted with exactly one decimal digit. -/
theorem c6_progress_bar (e t : Int) (ht : 0 < t) :
    (buildProgress e t).bar =
      strRepeat BAR_FILLED (jsRound (clampFrac e t * (BAR_LENGTH : ℚ))).toNat ++
        strRepeat BAR_EMPTY
          ((BAR_LENGTH - jsRound (clampFrac e t * (BAR_LENGTH : ℚ))).toNat) ∧
    (buildProgress e t).bar.length = 30 ∧
    (buildProgress e t).pct = toFixed1 (clampFrac e t * 100) ∧
    ∃ a b : Nat, b < 10 ∧
      (buildProgress e t).pct = toString a ++ (".") ++ toString b := by
  have hb : ((BAR_LENGTH : Int) : ℚ) = 30 := by norm_num [BAR_LENGTH]
  have h0 : (0 : ℚ) ≤ clampFrac e t := le_min (by norm_num) (le_max_left 0 _)
  have h1 : clampFrac e t ≤ 1 := min_le_left _ _
  have hf0 : 0 ≤ jsRound (clampFrac e t * (BAR_LENGTH : ℚ)) :=
    jsRound_nonneg _ (by rw [hb]; positivity)
  have hf30 : jsRound (clampFrac e t * (BAR_LENGTH : ℚ)) ≤ 30 :=
    jsRound_le_30 _ (by rw [hb]; nlinarith)
  refine ⟨rfl, ?_, rfl, ?_⟩
  · set F := jsRound (clampFrac e t * (BAR_LENGTH : ℚ)) with hF
    have hbar : (buildProgress e t).bar =
        strRepeat BAR_FILLED F.toNat ++
          strRepeat BAR_EMPTY ((BAR_LENGTH - F).toNat) := rfl
    rw [hbar, String.length_append, strRepeat_length, strRepeat_length]
    have e1 : BAR_FILLED.length = 1 := rfl
    have e2 : BAR_EMPTY.length = 1 := rfl
    have e3 : BAR_LENGTH = (30 : Int) := rfl
    rw [e1, e2, e3, Nat.mul_one, Nat.mul_one]
    omega
  · exact ⟨_, _, Nat.mod_lt _ (by decide), rfl⟩

/-- Witness for C6 at elapsed 37 of 90. -/
theorem c6_progress_bar_witness :
    (0 : Int) < 90 ∧ (buildProgress 37 90).bar.length = 30 :=
  ⟨by decide, (c6_progress_bar 37 90 (by decide)).2.1⟩

/-- C7: for every `now`, the computed elapsed days lie within
`[0, totalDays]` and equal `clamp(floor((now - start) / 1 day), 0,
totalDays)` (with `clamp x lo hi = max lo (min hi x)`), provided the
window is non-degenerate (`totalDays ≥ 0`). -/
theorem c7_elapsed_clamped (nowMs startMs targetMs : Int)
    (h : 0 ≤ daysDiff startMs targetMs) :
    0 ≤ elapsedDaysCalc nowMs startMs targetMs ∧
    elapsedDaysCalc nowMs startMs targetMs ≤ daysDiff startMs targetMs ∧
    elapsedDaysCalc nowMs startMs targetMs =
      max 0 (min (daysDiff startMs targetMs) (daysDiff startMs nowMs)) := by
  unfold elapsedDaysCalc
  omega

/-- Witness for C7: one day into the real window, and a `now` far before
the start. -/
theorem c7_elapsed_clamped_witness :
    (0 : Int) ≤ daysDiff 0 7776000000 ∧
    (0 ≤ elapsedDaysCalc 86400000 0 7776000000 ∧
      elapsedDaysCalc 86400000 0 7776000000 ≤ daysDiff 0 7776000000 ∧
      elapsedDaysCalc 86400000 0 7776000000 =
        max 0 (min (daysDiff 0 7776000000) (daysDiff 0 86400000))) ∧
    0 ≤ elapsedDaysCalc (-999999999999) 0 7776000000 :=
  ⟨by decide, c7_elapsed_clamped 86400000 0 7776000000 (by decide),
   (c7_elapsed_clamped (-999999999999) 0 7776000000 (by decide)).1⟩

/-- C8: every read or write failure raised by the guard's storage is
swallowed: the guard reports "proceed to post" (`false`) and leaves the
file untouched — a read failure on an existing file, a write failure on a
missing file, and a write failure after reading differing content. -/
theorem c8_guard_swallows_errors (prev hash : String) (w r : Bool) :
    alreadyPostedGuard (GuardFile.stored prev) true w hash =
      (false, GuardFile.stored prev) ∧
    alreadyPostedGuard GuardFile.absent r true hash = (false, GuardFile.absent) ∧
    (jsTrim prev ≠ hash →
      alreadyPostedGuard (GuardFile.stored prev) false true hash =
        (false, GuardFile.stored prev)) := by
  refine ⟨rfl, ?_, fun h => ?_⟩
  · cases r <;> rfl
  · simp [alreadyPostedGuard, beq_iff_eq, h]

/-- Witness for C8 on differing concrete contents. -/
theorem c8_guard_swallows_errors_witness :
    jsTrim ("aaaa") ≠ ("bbbb") ∧
    alreadyPostedGuard (GuardFile.stored ("aaaa")) false true ("bbbb") =
      (false, GuardFile.stored ("aaaa")) :=
  ⟨by decide, (c8_guard_swallows_errors ("aaaa") ("bbbb") true true).2.2 (by decide)⟩

/-- C3: the day-count line has three mutually exclusive branches: for
`remainingDays ≥ 2` the plural "days left" line comes first; for exactly 1
the singular "last call" line; for exactly 0 the "final day" line with the
retrospective line appended after all other lines (and nothing else); and
for negative remaining days the run composes no message text at all. -/
theorem c3_daycount_branches (d : Int) (p : String) (m : Bool) (env : RunEnv) :
    (2 ≤ d → (pickNudgeLines d p m).head? = some (pluralLine d p)) ∧
    (d = 1 → (pickNudgeLines d p m).head? = some (lastCallLine p)) ∧
    (d = 0 → pickNudgeLines d p m = [finalDayLine p, retroLine]) ∧
    (daysLeft env.nowMs env.targetMs < 0 →
      (runMain env).composed = none ∧ (runMain env).postAttempt = none) := by
  refine ⟨fun h2 => ?_, fun h1 => ?_, fun h0 => ?_, fun hneg => ?_⟩
  · simp [pickNudgeLines, show (1 : Int) < d from by omega]
  · subst h1; norm_num [pickNudgeLines]
  · subst h0; norm_num [pickNudgeLines]
  · unfold runMain
    by_cases hw : webhookMissing env.webhookUrl
    · simp [hw]
    · simp [hw, hneg]

/-- Witness for C3 at days 5, 1, 0 and a late run. -/
theorem c3_daycount_branches_witness :
    ((2 : Int) ≤ 5 ∧
      (pickNudgeLines 5 ("94.4") false).head? = some (pluralLine 5 ("94.4"))) ∧
    (pickNudgeLines 1 ("98.9") true).head? = some (lastCallLine ("98.9")) ∧
    pickNudgeLines 0 ("100.0") true = [finalDayLine ("100.0"), retroLine] ∧
    (daysLeft sampleEnvLate.nowMs sampleEnvLate.targetMs < 0 ∧
      (runMain sampleEnvLate).composed = none) :=
  ⟨⟨by decide, (c3_daycount_branches 5 ("94.4") false sampleEnv).1 (by decide)⟩,
   (c3_daycount_branches 1 ("98.9") true sampleEnv).2.1 rfl,
   (c3_daycount_branches 0 ("100.0") true sampleEnv).2.2.1 rfl,
   ⟨by decide,
    ((c3_daycount_branches 5 ("94.4") false sampleEnvLate).2.2.2 (by decide)).1⟩⟩

theorem milestone_head_cases (d : Int) (p : String) (m : Bool) (s : String)
    (hs : s ∈ pickNudgeLines d p m) (hh : s.data.head? = some '🎯') :
    m = true ∧ 0 < d := by
  unfold pickNudgeLines at hs
  rcases List.mem_append.mp hs with hs123 | hs4
  · rcases List.mem_append.mp hs123 with hs12 | hs3
    · rcases List.mem_append.mp hs12 with hs1 | hs2
      · split at hs1
        · simp at hs1
          rw [hs1, pluralLine_head] at hh
          exact absurd hh (by decide)
        · split at hs1
          · simp at hs1
            rw [hs1, lastCallLine_head] at hh
            exact absurd hh (by decide)
          · split at hs1
            · simp at hs1
              rw [hs1, finalDayLine_head] at hh
              exact absurd hh (by decide)
            · simp at hs1
      · split at hs2
        · simp at hs2
          rw [hs2, promptLine_head] at hh
          exact absurd hh (by decide)
        · simp at hs2
    · split at hs3
      · next hcond => exact hcond
      · simp at hs3
  · split at hs4
    · simp at hs4
      rw [hs4, retroLine_head] at hh
      exact absurd hh (by decide)
    · simp at hs4

/-- C4: the milestone prompt line (the line starting with the 🎯 glyph)
appears among the composed nudge lines if and only if `remainingDays` is a
member of the fixed milestone set and `remainingDays > 0`. -/
theorem c4_milestone_iff (d : Int) (p : String) :
    (∃ s ∈ pickNudgeLines d p (MILESTONES.contains d),
       s.data.head? = some '🎯') ↔
      MILESTONES.contains d = true ∧ 0 < d := by
  constructor
  · rintro ⟨s, hs, hh⟩
    exact milestone_head_cases d p _ s hs hh
  · rintro ⟨hm, hd⟩
    refine ⟨milestonePromptLine (milestoneFlavor.getD (milestoneIdx d p) ("")),
      ?_, milestonePromptLine_head _⟩
    unfold pickNudgeLines
    refine List.mem_append_left _ (List.mem_append_right _ ?_)
    simp [hm, hd]
    exact List.elem_iff.mp hm

/-- C2: when two consecutive invocations in the same execution context
compose identical text (same resolved instants, so the same `core`), the
second invocation's guard reports a duplicate, the publisher is not
invoked, and the stored hash file is unchanged; on differing content the
guard stores the new hash and reports proceed. -/
theorem c2_dedup_guard (env : RunEnv)
    (hw : webhookMissing env.webhookUrl = false)
    (hr : env.readFails = false) (hwr : env.writeFails = false)
    (hd : 0 ≤ daysLeft env.nowMs env.targetMs) :
    ((runMain { env with file := (runMain env).file }).dupSkip = true ∧
     (runMain { env with file := (runMain env).file }).postAttempt = none ∧
     (runMain { env with file := (runMain env).file }).file =
       (runMain env).file) ∧
    (∀ prev hash, jsTrim prev ≠ hash →
      alreadyPostedGuard (GuardFile.stored prev) false false hash =
        (false, GuardFile.stored hash)) := by
  constructor
  · rcases env with ⟨w, b, now, st, tg, f, rf, wf, pub⟩
    have hw' : webhookMissing w = false := hw
    have hr' : rf = false := hr
    have hwr' : wf = false := hwr
    have hd' : 0 ≤ daysLeft now tg := hd
    subst hr'; subst hwr'
    have hrem : ¬ daysLeft now tg < 0 := by omega
    cases f with
    | absent =>
      cases pub <;>
        simp [runMain, hw', hrem, alreadyPostedGuard, jsTrim_md5Hex]
    | stored prev =>
      by_cases hp : jsTrim prev == md5Hex (strUtf8 (composeCore now st tg))
      · cases pub <;> simp [runMain, hw', hrem, alreadyPostedGuard, hp]
      · cases pub <;>
          simp [runMain, hw', hrem, alreadyPostedGuard, hp, jsTrim_md5Hex]
  · intro prev hash h
    simp [alreadyPostedGuard, beq_iff_eq, h]

/-- Witness for C2 on a fresh-file day-0 environment. -/
theorem c2_dedup_guard_witness :
    webhookMissing sampleEnv.webhookUrl = false ∧
    (0 : Int) ≤ daysLeft sampleEnv.nowMs sampleEnv.targetMs ∧
    (runMain { sampleEnv with file := (runMain sampleEnv).file }).dupSkip = true :=
  ⟨by decide, by decide,
   ((c2_dedup_guard sampleEnv (by decide) rfl rfl (by decide)).1).1⟩

/-- C5: the exit status is 0 or 1; it is 1 exactly when the required secret
is missing at startup or when a publish attempt fails; the window-elapsed
case and the duplicate-skip case both exit 0 without posting. -/
theorem c5_exit_codes (env : RunEnv) :
    ((runMain env).exitCode = 0 ∨ (runMain env).exitCode = 1) ∧
    ((runMain env).exitCode = 1 ↔
      (webhookMissing env.webhookUrl = true ∨
        ((runMain env).postAttempt ≠ none ∧ env.publishOk = false))) ∧
    (webhookMissing env.webhookUrl = false →
      daysLeft env.nowMs env.targetMs < 0 →
      (runMain env).exitCode = 0 ∧ (runMain env).postAttempt = none ∧
        (runMain env).posted = false) ∧
    ((runMain env).dupSkip = true → (runMain env).exitCode = 0) := by
  by_cases hw : webhookMissing env.webhookUrl
  · simp [runMain, hw]
  · by_cases hrem : daysLeft env.nowMs env.targetMs < 0
    · simp [runMain, hw, hrem]
    · cases hg : (alreadyPostedGuard env.file env.readFails env.writeFails
        (md5Hex (strUtf8 (composeCore env.nowMs env.startMs env.targetMs)))).1 with
      | true => simp [runMain, hw, hrem, hg]
      | false =>
        cases hb : env.publishOk with
        | true => simp [runMain, hw, hrem, hg, hb]
        | false => simp [runMain, hw, hrem, hg, hb]

/-- C9: the guard stores the new hash before the publish call is attempted,
so when the publish fails the stored hash is already the failed message's
hash and a subsequent invocation in the same context composing identical
content reports skip and never retries the post. -/
theorem c9_hash_before_publish (env : RunEnv)
    (hw : webhookMissing env.webhookUrl = false)
    (hr : env.readFails = false) (hwr : env.writeFails = false)
    (hf : env.file = GuardFile.absent) (hp : env.publishOk = false)
    (hd : 0 ≤ daysLeft env.nowMs env.targetMs) :
    (runMain env).exitCode = 1 ∧
    (runMain env).file = GuardFile.stored
      (md5Hex (strUtf8 (composeCore env.nowMs env.startMs env.targetMs))) ∧
    ∀ pub2 : Bool,
      (runMain
        { env with file := (runMain env).file, publishOk := pub2 }).dupSkip
          = true ∧
      (runMain
        { env with file := (runMain env).file, publishOk := pub2 }).postAttempt
          = none := by
  rcases env with ⟨w, b, now, st, tg, f, rf, wf, pub⟩
  have hw' : webhookMissing w = false := hw
  have hr' : rf = false := hr
  have hwr' : wf = false := hwr
  have hf' : f = GuardFile.absent := hf
  have hp' : pub = false := hp
  have hd' : 0 ≤ daysLeft now tg := hd
  subst hr'; subst hwr'; subst hf'; subst hp'
  have hrem : ¬ daysLeft now tg < 0 := by omega
  refine ⟨?_, ?_, fun pub2 => ?_⟩ <;>
    simp [runMain, hw', hrem, alreadyPostedGuard, jsTrim_md5Hex]

/-- Witness for C9 on a day-0 environment whose publish call fails. -/
theorem c9_hash_before_publish_witness :
    webhookMissing sampleEnvFail.webhookUrl = false ∧
    sampleEnvFail.publishOk = false ∧
    (0 : Int) ≤ daysLeft sampleEnvFail.nowMs sampleEnvFail.targetMs ∧
    (runMain sampleEnvFail).exitCode = 1 :=
  ⟨by decide, rfl, by decide,
   (c9_hash_before_publish sampleEnvFail (by decide) rfl rfl rfl rfl
     (by decide)).1⟩

/-- C10: the startup check validates only `SLACK_WEBHOOK_URL`;
`SLACK_BOT_TOKEN` is never read: with the webhook set (non-falsy) the
config check passes, the outcome is independent of the bot token, and with
the token unset the run still proceeds to the publish attempt. -/
theorem c10_bot_token_never_validated (env : RunEnv) (u : String)
    (hw : env.webhookUrl = some u) (hu : u ≠ (""))
    (hb : env.botToken = none) (hf : env.file = GuardFile.absent)
    (hd : 0 ≤ daysLeft env.nowMs env.targetMs) :
    webhookMissing env.webhookUrl = false ∧
    (∀ t1 t2 : Option String,
      runMain { env with botToken := t1 } =
        runMain { env with botToken := t2 }) ∧
    (runMain env).postAttempt =
      some (composeCore env.nowMs env.startMs env.targetMs) := by
  have hwm : webhookMissing env.webhookUrl = false := by
    rw [hw]; simp [webhookMissing, hu]
  refine ⟨hwm, fun t1 t2 => rfl, ?_⟩
  rcases env with ⟨w, b, now, st, tg, f, rf, wf, pub⟩
  have hwm' : webhookMissing w = false := hwm
  have hf' : f = GuardFile.absent := hf
  subst hf'
  have hd' : 0 ≤ daysLeft now tg := hd
  have hrem : ¬ daysLeft now tg < 0 := by omega
  cases wf <;> cases pub <;>
    simp [runMain, hwm', hrem, alreadyPostedGuard]

/-- Witness for C10 on the day-0 environment (webhook set, token unset). -/
theorem c10_bot_token_never_validated_witness :
    sampleEnv.webhookUrl = some ("https://hook") ∧
    ("https://hook" : String) ≠ ("") ∧
    webhookMissing sampleEnv.webhookUrl = false :=
  ⟨rfl, by decide,
   (c10_bot_token_never_validated sampleEnv ("https://hook") rfl (by decide)
     rfl rfl (by decide)).1⟩

end Countdown
